import Mathlib

/-!
Verification of the Aletheia document-perception system against its
natural-language specification.

The development shallowly embeds the relevant parts of the repository:

* `src/extension/vscode/src/virtualfs/provider.ts` — the virtual document
  provider (`AletheiaDocumentProvider`).
* `src/extension/vscode/src/virtualfs/tempDocuments.ts` — the temporary
  document registry, and (quoted in the same file) the sidecar query
  endpoint `query_document` from the Fundamentals Part 2 plan.
* `src/extension/vscode/src/commands/parseFile.ts` — `isSupportedFile`.
* `src/docs/development/files_created.md` — the quoted
  `PipelineController._ingest_pdf` / `_ingest_image` excerpts from
  `controller.py` and the `DocumentStore` excerpt from `document_store.py`.
* `src/unnamed/part_006` — the webview renderer (`escapeHtml`,
  `renderBlocks`).

JavaScript `Map<string, T>` state is embedded as the function type
`String → Option T`; Python dictionaries likewise.  Fallible operations
return `Option`/`Except`.  Functions of the repository that are only
quoted or documented under `src/` (the bodies of `keyword_search`,
`regex_search`, `apply_filters`, and the page construction of
`_ingest_pdf`) are modelled from the specification and marked as such in
their doc comments.
-/

/-! ## Virtual document provider (provider.ts) -/

/-- State of `AletheiaDocumentProvider.documents`, a JavaScript
`Map<string, string>` keyed by `uri.toString()`, embedded as a partial map
from key strings to content strings. -/
def ProviderState := String → Option String

/-- The provider with no documents (a freshly constructed
`AletheiaDocumentProvider`, or the state after `clear()`). -/
def emptyProvider : ProviderState := fun _ => none

/-- Embedding of `AletheiaDocumentProvider.setContent`:
`this.documents.set(uri.toString(), content)`.  The `onDidChange` event
firing carries no state and is not modelled. -/
def setContent (m : ProviderState) (uri content : String) : ProviderState :=
  fun k => if k = uri then some content else m k

/-- Embedding of `AletheiaDocumentProvider.provideTextDocumentContent`:
`return this.documents.get(uri.toString()) || '';`.  JavaScript `||`
yields the right operand when the left is falsy, and the only falsy
string is the empty string, so a stored empty string and a missing key
both produce `""`. -/
def provideTextDocumentContent (m : ProviderState) (uri : String) : String :=
  match m uri with
  | some c => if c = "" then "" else c
  | none => ""

/-- Embedding of `AletheiaDocumentProvider.removeDocument`:
`this.documents.delete(uri.toString())`. -/
def removeDocument (m : ProviderState) (uri : String) : ProviderState :=
  fun k => if k = uri then none else m k

/-- Embedding of `AletheiaDocumentProvider.clear`:
`this.documents.clear()`. -/
def clearProvider (_m : ProviderState) : ProviderState :=
  emptyProvider

/-! ## Temporary documents (tempDocuments.ts) -/

/-- Embedding of the `TempDocument` record of tempDocuments.ts.  The
`createdAt : Date` field is embedded as a natural-number timestamp. -/
structure TempDocument where
  uri : String
  documentId : String
  createdAt : Nat
  content : String
deriving DecidableEq, Repr

/-- State of the module-level `tempDocuments` map of tempDocuments.ts
(`Map<string, TempDocument>` keyed by `documentId`). -/
def TempDocState := String → Option TempDocument

/-- Embedding of `getTempDocument`: `return tempDocuments.get(documentId);`
— `Map.get` yields `undefined` (here `none`) when the key is absent. -/
def getTempDocument (m : TempDocState) (documentId : String) : Option TempDocument :=
  m documentId

/-- Embedding of `removeTempDocument`: `tempDocuments.delete(documentId)`. -/
def removeTempDocument (m : TempDocState) (documentId : String) : TempDocState :=
  fun k => if k = documentId then none else m k

/-! ## Supported-file detection (parseFile.ts, part_007) -/

/-- Embedding of JavaScript `String.prototype.split` with a
single-character separator, at the character-list level: `"".split(sep)`
is `[""]`, and adjacent separators produce empty groups. -/
def splitChar (sep : Char) : List Char → List (List Char)
  | [] => [[]]
  | c :: cs =>
    if c = sep then [] :: splitChar sep cs
    else
      match splitChar sep cs with
      | [] => [[c]]
      | g :: gs => (c :: g) :: gs

/-- Extension extraction of `isSupportedFile`:
`uri.fsPath.toLowerCase().split('.').pop()`, with the JavaScript
`ext || ''` fallback.  `toLowerCase` is embedded as per-character
lowercasing (the extensions compared against are ASCII). -/
def lastExt (fsPath : String) : List Char :=
  ((splitChar '.' (fsPath.data.map Char.toLower)).getLast?).getD []

/-- The extension list of `isSupportedFile` (parseFile.ts). -/
def supportedExtensions : List (List Char) :=
  ["pdf".data, "png".data, "jpg".data, "jpeg".data, "tiff".data]

/-- Embedding of `isSupportedFile` (parseFile.ts):
`return ['pdf', 'png', 'jpg', 'jpeg', 'tiff'].includes(ext || '');`. -/
def isSupportedFile (fsPath : String) : Bool :=
  supportedExtensions.contains (lastExt fsPath)

/-- Document-type detection over a (filename, content) pair as the source
implements it: `isSupportedFile` inspects only `uri.fsPath`
(parseFile.ts), and the orchestrator's `process_file` performs
"Automatic loader selection based on file extension" (part_007), so the
content bytes are not consulted.  The content argument is therefore
unused, exactly as in the source. -/
def detectSupported (fsPath : String) (_content : List Nat) : Bool :=
  isSupportedFile fsPath

/-! ## Data model (files_created.md, quoted from controller.py / document.py) -/

/-- Block types of the data model (`Block.type`); the quoted
`_ingest_pdf` produces `paragraph` and `figure`, the spec's closed set
adds the remaining layout classes. -/
inductive BlockType where
  | paragraph
  | figure
  | heading
  | list
  | table
  | caption
  | header
  | footer
  | other
deriving DecidableEq, BEq

/-- Bounding box `(x, y, width, height)` in page coordinates.  The source
stores Python floats; they are embedded as rationals. -/
structure BoundingBox where
  x : ℚ
  y : ℚ
  width : ℚ
  height : ℚ

/-- Embedding of the `Block` model (`document.py` via files_created.md):
`Block(id=..., type=..., content=..., bbox=..., confidence=...)`. -/
structure Block where
  id : String
  type : BlockType
  content : String
  bbox : BoundingBox
  confidence : ℚ

/-- Embedding of the `Page` model: 1-based `page_number`, page size, and
the blocks in reading order. -/
structure Page where
  page_number : Nat
  width : ℚ
  height : ℚ
  blocks : List Block

/-- Embedding of the `Document` model, restricted to the fields the
claims touch. -/
structure Doc where
  document_id : String
  pages : List Page

/-- Embedding of Python `str.strip()` (used as `text.strip()` in the
quoted controller code): drop whitespace from both ends. -/
def pyStrip (s : String) : String :=
  String.mk (((s.data.dropWhile Char.isWhitespace).reverse.dropWhile
    Char.isWhitespace).reverse)

/-! ## Pipeline controller (`_ingest_pdf`, `_ingest_image`) -/

/-- One element of the PyMuPDF `page.get_text("blocks")` tuple list:
`(x0, y0, x1, y1, text, block_no, block_type)`. -/
structure RawPdfBlock where
  x0 : ℚ
  y0 : ℚ
  x1 : ℚ
  y1 : ℚ
  text : String
  block_no : Nat
  block_type : Nat

/-- One rasterized PDF page as handed to the block loop of
`_ingest_pdf`: its size and its extracted text blocks. -/
structure RawPdfPage where
  width : ℚ
  height : ℚ
  blocks : List RawPdfBlock

/-- Embedding of the quoted block loop of `PipelineController._ingest_pdf`
(files_created.md): for the 0-based page index `page_num`,
`for idx, block in enumerate(text_blocks)` builds
`Block(id=f"p{page_num + 1}_b{idx}", type="paragraph" if block_type == 0
else "figure", content=text.strip(), bbox=BoundingBox(x=float(x0),
y=float(y0), ...), confidence=1.0)`.  The quoted code elides the bbox
width/height arguments; they are taken as the coordinate differences. -/
def ingest_pdf_blocks (page_num : Nat) (text_blocks : List RawPdfBlock) : List Block :=
  text_blocks.enum.map fun p =>
    { id := "p" ++ toString (page_num + 1) ++ "_b" ++ toString p.1
      type := if p.2.block_type = 0 then .paragraph else .figure
      content := pyStrip p.2.text
      bbox := ⟨p.2.x0, p.2.y0, p.2.x1 - p.2.x0, p.2.y1 - p.2.y0⟩
      confidence := 1 }

/-- Modelled from the spec: the `Page` assembly of
`PipelineController._ingest_pdf` is not under src/ — only its inner
block loop is quoted in files_created.md.  The spec fixes
`Document.pages[i].page_number == i+1` (1-based, monotonic, no gaps),
which matches the 1-based `p{page_num + 1}` prefix of the quoted block
ids, so each 0-based loop index `page_num` yields a page numbered
`page_num + 1`. -/
def ingest_pdf (raw_pages : List RawPdfPage) : List Page :=
  raw_pages.enum.map fun p =>
    { page_number := p.1 + 1
      width := p.2.width
      height := p.2.height
      blocks := ingest_pdf_blocks p.1 p.2.blocks }

/-- Embedding of the quoted block construction of
`PipelineController._ingest_image` (files_created.md): the whole
recognized text becomes one block,
`Block(id="b1", type="paragraph", content=text.strip(),
bbox=BoundingBox(x=0, y=0, width=width, height=height),
confidence=0.8)`. -/
def ingest_image_blocks (text : String) (width height : ℚ) : List Block :=
  [{ id := "b1"
     type := .paragraph
     content := pyStrip text
     bbox := ⟨0, 0, width, height⟩
     confidence := 4 / 5 }]

/-! ## Query engine (query.py excerpt in tempDocuments.ts; searches modelled from the spec) -/

/-- Relevance score as an exact fraction `num / (den1 + 1)`.  The
denominator is stored off by one so that it is positive by construction,
which makes the cross-multiplication ordering below total and
transitive.  The source stores a float in `[0, 1]`; it is embedded as an
exact rational. -/
structure Score where
  num : Nat
  den1 : Nat
deriving DecidableEq

/-- Strict value order on scores: `a.num / (a.den1+1) < b.num / (b.den1+1)`,
expressed by cross multiplication. -/
def Score.lt (a b : Score) : Prop :=
  a.num * (b.den1 + 1) < b.num * (a.den1 + 1)

/-- Value equality of scores (`2/4` equals `1/2`), by cross
multiplication. -/
def Score.eqv (a b : Score) : Prop :=
  a.num * (b.den1 + 1) = b.num * (a.den1 + 1)

instance (a b : Score) : Decidable (Score.lt a b) :=
  Nat.decLt _ _

instance (a b : Score) : Decidable (Score.eqv a b) :=
  Nat.decEq _ _

/-- The rational value denoted by a score (used only in proofs). -/
def scoreQ (s : Score) : ℚ :=
  (s.num : ℚ) / (s.den1 + 1)

/-- Query modes of `PerceptionQuery.mode`. -/
inductive QueryMode where
  | keyword
  | regex
  | semantic
deriving DecidableEq

/-- Typed query-engine errors: `NotFoundError` for a missing document id
(the endpoint's 404) and `InvalidQueryError` for bad query syntax. -/
inductive QueryError where
  | notFound
  | invalidQuery
deriving DecidableEq

/-- Embedding of the `PerceptionQuery` model:
`{document_id, query, mode, page_range?, block_types?, max_results}`. -/
structure PerceptionQuery where
  document_id : String
  query : String
  mode : QueryMode
  page_range : Option (Nat × Nat)
  block_types : Option (List BlockType)
  max_results : Nat

/-- Embedding of the `QueryResult` shape
`{block_id, page_number, matched_text, score, context}`; `block_index`
(the block's reading-order index in its page) and `block_type` are
carried so the spec's tie-breaking and `block_types` filtering are
expressible on a result. -/
structure QueryResult where
  block_id : String
  page_number : Nat
  block_index : Nat
  block_type : BlockType
  matched_text : String
  context : String
  score : Score
deriving DecidableEq

/-- Whether the first character list is a prefix of the second. -/
def listStartsWith : List Char → List Char → Bool
  | [], _ => true
  | _ :: _, [] => false
  | a :: as, b :: bs => a == b && listStartsWith as bs

/-- Scanner for Python's non-overlapping `str.count`: `skip` positions
remain to be skipped after a previous match. -/
def countOccurAux (q : List Char) : List Char → Nat → Nat
  | [], _ => 0
  | c :: cs, 0 =>
    if !q.isEmpty && listStartsWith q (c :: cs) then
      1 + countOccurAux q cs (q.length - 1)
    else
      countOccurAux q cs 0
  | _ :: cs, k + 1 => countOccurAux q cs k

/-- Number of non-overlapping occurrences of `q` in the text (0 when `q`
is empty), as Python's `str.count`. -/
def countOccur (q t : List Char) : Nat :=
  countOccurAux q t 0

/-- Per-character lowercasing, embedding `str.lower()` for the ASCII
texts at hand. -/
def toLowerStr (s : String) : String :=
  String.mk (s.data.map Char.toLower)

/-- Modelled from the spec: the keyword score policy — "(matched
occurrences / block length, normalized)" capped at `1` — for occurrence
count `occ`, query length `qlen` and block text length `tlen`:
`min 1 (occ * qlen / tlen)` as an exact fraction.  The body of
`keyword_search` is not under src/. -/
def keywordScore (occ qlen tlen : Nat) : Score :=
  if tlen ≤ occ * qlen then ⟨1, 0⟩ else ⟨occ * qlen, tlen - 1⟩

/-- Modelled from the spec: the matching pass of `keyword_search`, whose
body is not under src/ — "case-insensitive substring match against each
block's text", one result per matching block, "with exact full-text
equality scoring 1.0".  Results carry the block's page number and
reading-order index for ordering and filtering. -/
def keywordMatches (doc : Doc) (q : String) : List QueryResult :=
  doc.pages.flatMap fun page =>
    page.blocks.enum.filterMap fun p =>
      let tl := toLowerStr p.2.content
      let ql := toLowerStr q
      let occ := countOccur ql.data tl.data
      if 0 < occ then
        some { block_id := p.2.id
               page_number := page.page_number
               block_index := p.1
               block_type := p.2.type
               matched_text := p.2.content
               context := p.2.content
               score := if tl = ql then ⟨1, 0⟩
                        else keywordScore occ ql.data.length tl.data.length }
      else none

/-- Modelled from the spec: the result order — "primary key descending
score, secondary key ascending `(page_number, reading-order index)`". -/
def resultOrder (a b : QueryResult) : Prop :=
  Score.lt b.score a.score ∨
    (Score.eqv a.score b.score ∧
      (a.page_number < b.page_number ∨
        (a.page_number = b.page_number ∧ a.block_index ≤ b.block_index)))

instance : DecidableRel resultOrder := fun a b =>
  inferInstanceAs (Decidable
    (Score.lt b.score a.score ∨
      (Score.eqv a.score b.score ∧
        (a.page_number < b.page_number ∨
          (a.page_number = b.page_number ∧ a.block_index ≤ b.block_index)))))

/-- Modelled from the spec: sorting of search results by `resultOrder`
(the sorting pass is not under src/; the spec fixes the order and calls
it stable). -/
def sortResults (rs : List QueryResult) : List QueryResult :=
  List.insertionSort resultOrder rs

/-- Modelled from the spec: `keyword_search` (called by the
`query_document` endpoint but with its body not under src/) — match, then
order by descending score with ascending `(page_number, index)`
tie-break. -/
def keyword_search (doc : Doc) (q : String) : List QueryResult :=
  sortResults (keywordMatches doc q)

/-- Abstract syntax of the modelled regex dialect: empty-set, empty
string, any character (`.`), a literal, the digit class (`\d`),
alternation, concatenation and Kleene star (`+`/`?` are derived by the
parser). -/
inductive RegexAst where
  | fail
  | eps
  | anyChar
  | lit (c : Char)
  | digit
  | alt (r s : RegexAst)
  | cat (r s : RegexAst)
  | star (r : RegexAst)
deriving DecidableEq

/-- Whether the regex accepts the empty string. -/
def nullable : RegexAst → Bool
  | .fail => false
  | .eps => true
  | .anyChar => false
  | .lit _ => false
  | .digit => false
  | .alt r s => nullable r || nullable s
  | .cat r s => nullable r && nullable s
  | .star _ => true

/-- Brzozowski derivative of a regex by one character. -/
def derivc (c : Char) : RegexAst → RegexAst
  | .fail => .fail
  | .eps => .fail
  | .anyChar => .eps
  | .lit a => if a == c then .eps else .fail
  | .digit => if c.isDigit then .eps else .fail
  | .alt r s => .alt (derivc c r) (derivc c s)
  | .cat r s =>
    if nullable r then .alt (.cat (derivc c r) s) (derivc c s)
    else .cat (derivc c r) s
  | .star r => .cat (derivc c r) (.star r)

/-- Whether some prefix of the text matches the regex. -/
def matchHere (r : RegexAst) : List Char → Bool
  | [] => nullable r
  | c :: cs => nullable r || matchHere (derivc c r) cs

/-- All suffixes of a list, the list itself first. -/
def listTails : List Char → List (List Char)
  | [] => [[]]
  | c :: cs => (c :: cs) :: listTails cs

/-- Search semantics: the regex matches somewhere inside the text. -/
def containsMatch (r : RegexAst) (s : List Char) : Bool :=
  (listTails s).any (matchHere r)

/-- Grammar level being parsed: alternation, concatenation, a quantified
atom, or an atom. -/
inductive ParseLevel where
  | altLevel
  | catLevel
  | postLevel
  | atomLevel

/-- Greedily applies the quantifiers `*`, `+`, `?` following an atom. -/
def applyQuant (r : RegexAst) : List Char → RegexAst × List Char
  | '*' :: rest => applyQuant (.star r) rest
  | '+' :: rest => applyQuant (.cat r (.star r)) rest
  | '?' :: rest => applyQuant (.alt r .eps) rest
  | rest => (r, rest)

/-- Modelled from the spec: the recursive-descent pattern compiler of
`regex_search`, whose body is not under src/.  The spec requires
syntactically invalid patterns (unbalanced parentheses such as `"("`, a
dangling quantifier, a stray `)`) to be rejected rather than matched
loosely.  Fuel-indexed so the recursion is structural; `none` is the
typed parse failure. -/
def parseR : Nat → ParseLevel → List Char → Option (RegexAst × List Char)
  | 0, _, _ => none
  | fuel + 1, .altLevel, s =>
    match parseR fuel .catLevel s with
    | none => none
    | some (r, rest) =>
      match rest with
      | '|' :: rest2 =>
        match parseR fuel .altLevel rest2 with
        | none => none
        | some (r2, rest3) => some (.alt r r2, rest3)
      | _ => some (r, rest)
  | fuel + 1, .catLevel, s =>
    match s with
    | [] => some (.eps, [])
    | ')' :: _ => some (.eps, s)
    | '|' :: _ => some (.eps, s)
    | _ =>
      match parseR fuel .postLevel s with
      | none => none
      | some (r, rest) =>
        match parseR fuel .catLevel rest with
        | none => none
        | some (r2, rest2) => some (.cat r r2, rest2)
  | fuel + 1, .postLevel, s =>
    match parseR fuel .atomLevel s with
    | none => none
    | some (r, rest) => some (applyQuant r rest)
  | fuel + 1, .atomLevel, s =>
    match s with
    | [] => none
    | '(' :: rest =>
      match parseR fuel .altLevel rest with
      | none => none
      | some (r, ')' :: rest2) => some (r, rest2)
      | some _ => none
    | ')' :: _ => none
    | '|' :: _ => none
    | '*' :: _ => none
    | '+' :: _ => none
    | '?' :: _ => none
    | '.' :: rest => some (.anyChar, rest)
    | '\\' :: [] => none
    | '\\' :: c :: rest => if c = 'd' then some (.digit, rest) else some (.lit c, rest)
    | c :: rest => some (.lit c, rest)

/-- Top-level pattern compilation: the whole pattern must be consumed;
leftover input (an unmatched `)`) or a parse failure is the typed
invalid-pattern outcome `none`. -/
def parseRegex (pattern : String) : Option RegexAst :=
  match parseR (8 * pattern.data.length + 16) .altLevel pattern.data with
  | some (r, []) => some r
  | _ => none

/-- Modelled from the spec: the matching pass of `regex_search` for a
compiled pattern — one result per block whose text contains a match.
The spec fixes no regex scoring; each match scores `1`. -/
def regexMatches (doc : Doc) (r : RegexAst) : List QueryResult :=
  doc.pages.flatMap fun page =>
    page.blocks.enum.filterMap fun p =>
      if containsMatch r p.2.content.data then
        some { block_id := p.2.id
               page_number := page.page_number
               block_index := p.1
               block_type := p.2.type
               matched_text := p.2.content
               context := p.2.content
               score := ⟨1, 0⟩ }
      else none

/-- Modelled from the spec: `regex_search` (called by the endpoint, body
not under src/) — "invalid patterns fail the request with a typed
`InvalidQueryError`, never matching everything or crashing". -/
def regex_search (doc : Doc) (pattern : String) :
    Except QueryError (List QueryResult) :=
  match parseRegex pattern with
  | none => Except.error QueryError.invalidQuery
  | some r => Except.ok (sortResults (regexMatches doc r))

/-- Modelled from the spec: the predicate of `apply_filters` — a result
passes when its page lies in `page_range` (when given) and its block's
type is among `block_types` (when given). -/
def passesFilters (q : PerceptionQuery) (r : QueryResult) : Bool :=
  (match q.page_range with
   | none => true
   | some (lo, hi) => decide (lo ≤ r.page_number ∧ r.page_number ≤ hi)) &&
  (match q.block_types with
   | none => true
   | some ts => ts.contains r.block_type)

/-- Modelled from the spec: `apply_filters(results, query)` (body not
under src/) keeps exactly the results passing the `page_range` and
`block_types` filters. -/
def apply_filters (results : List QueryResult) (q : PerceptionQuery) :
    List QueryResult :=
  results.filter (passesFilters q)

/-- Embedding of the `query_document` endpoint as quoted under src/
(tempDocuments.ts lines 291-309): look the document up (404 / not-found
when absent), run the mode's search (`results` stays empty for
`semantic`), apply the filters, then truncate to `max_results`. -/
def query_document (store : String → Option Doc) (q : PerceptionQuery) :
    Except QueryError (List QueryResult) :=
  match store q.document_id with
  | none => Except.error QueryError.notFound
  | some doc =>
    match q.mode with
    | QueryMode.keyword =>
      Except.ok ((apply_filters (keyword_search doc q.query) q).take q.max_results)
    | QueryMode.regex =>
      match regex_search doc q.query with
      | Except.error e => Except.error e
      | Except.ok results =>
        Except.ok ((apply_filters results q).take q.max_results)
    | QueryMode.semantic =>
      Except.ok ((apply_filters [] q).take q.max_results)

/-- The result order is transitive: proved by translating the
cross-multiplied score comparisons to the rational values they denote. -/
instance : IsTrans QueryResult resultOrder := by
  constructor
  intro a b c hab hbc
  have klt : ∀ x y : Score, Score.lt x y ↔ scoreQ x < scoreQ y := by
    intro x y
    unfold Score.lt scoreQ
    rw [div_lt_div_iff₀ (by positivity) (by positivity)]
    constructor <;> intro h <;> exact_mod_cast h
  have keq : ∀ x y : Score, Score.eqv x y ↔ scoreQ x = scoreQ y := by
    intro x y
    unfold Score.eqv scoreQ
    rw [div_eq_div_iff (by positivity) (by positivity)]
    constructor <;> intro h <;> exact_mod_cast h
  simp only [resultOrder, klt, keq] at hab hbc ⊢
  rcases hab with h1 | ⟨e1, t1⟩ <;> rcases hbc with h2 | ⟨e2, t2⟩
  · exact Or.inl (h2.trans h1)
  · exact Or.inl (by rw [← e2]; exact h1)
  · exact Or.inl (by rw [e1]; exact h2)
  · exact Or.inr ⟨e1.trans e2, by omega⟩

/-- The result order is total: scores are compared by their rational
values, and the page/index tie-break is total on naturals. -/
instance : IsTotal QueryResult resultOrder := by
  constructor
  intro a b
  have klt : ∀ x y : Score, Score.lt x y ↔ scoreQ x < scoreQ y := by
    intro x y
    unfold Score.lt scoreQ
    rw [div_lt_div_iff₀ (by positivity) (by positivity)]
    constructor <;> intro h <;> exact_mod_cast h
  have keq : ∀ x y : Score, Score.eqv x y ↔ scoreQ x = scoreQ y := by
    intro x y
    unfold Score.eqv scoreQ
    rw [div_eq_div_iff (by positivity) (by positivity)]
    constructor <;> intro h <;> exact_mod_cast h
  simp only [resultOrder, klt, keq]
  rcases lt_trichotomy (scoreQ a.score) (scoreQ b.score) with h | h | h
  · exact Or.inr (Or.inl h)
  · have htie : (a.page_number < b.page_number ∨
        (a.page_number = b.page_number ∧ a.block_index ≤ b.block_index)) ∨
        (b.page_number < a.page_number ∨
        (b.page_number = a.page_number ∧ b.block_index ≤ a.block_index)) := by
      omega
    rcases htie with ht | ht
    · exact Or.inl (Or.inr ⟨h, ht⟩)
    · exact Or.inr (Or.inr ⟨h.symm, ht⟩)
  · exact Or.inl (Or.inl h)

/-! ## Concrete sample data for the witnesses -/

/-- A stored paragraph block on page 1. -/
def sampleBlock1 : Block :=
  ⟨"p1_b0", .paragraph, "Invoice #1234", ⟨0, 0, 10, 10⟩, 1⟩

/-- A stored heading block on page 2. -/
def sampleBlock2 : Block :=
  ⟨"p2_b0", .heading, "Invoice total", ⟨0, 0, 10, 10⟩, 1⟩

/-- A two-page stored document. -/
def sampleDoc : Doc :=
  ⟨"doc-123", [⟨1, 612, 792, [sampleBlock1]⟩, ⟨2, 612, 792, [sampleBlock2]⟩]⟩

/-- A store holding exactly `sampleDoc`. -/
def sampleStore : String → Option Doc :=
  fun id => if id = "doc-123" then some sampleDoc else none

/-- A keyword query for `"invoice"` restricted to page 2, one result
slot. -/
def sampleQueryPageFiltered : PerceptionQuery :=
  ⟨"doc-123", "invoice", .keyword, some (2, 2), none, 1⟩

/-- An unfiltered keyword query for `"invoice"`. -/
def sampleQueryAll : PerceptionQuery :=
  ⟨"doc-123", "invoice", .keyword, none, none, 10⟩

/-- A regex query with the syntactically invalid pattern `"("`. -/
def sampleQueryBadPattern : PerceptionQuery :=
  ⟨"doc-123", "(", .regex, none, none, 10⟩

/-- A valid regex query filtered to heading blocks only. -/
def sampleQueryRegexFiltered : PerceptionQuery :=
  ⟨"doc-123", "\\d+", .regex, none, some [BlockType.heading], 10⟩

/-- The keyword result for `sampleBlock1` (score `7/13`). -/
def sampleResult1 : QueryResult :=
  ⟨"p1_b0", 1, 0, BlockType.paragraph, "Invoice #1234", "Invoice #1234", ⟨7, 12⟩⟩

/-- The keyword result for `sampleBlock2` (score `7/13`). -/
def sampleResult2 : QueryResult :=
  ⟨"p2_b0", 2, 0, BlockType.heading, "Invoice total", "Invoice total", ⟨7, 12⟩⟩

/-- The regex result for `sampleBlock1` under pattern `"\d+"`. -/
def sampleRegexResult : QueryResult :=
  ⟨"p1_b0", 1, 0, BlockType.paragraph, "Invoice #1234", "Invoice #1234", ⟨1, 0⟩⟩

/-! ## Webview renderer (part_006) -/

/-- The apostrophe character, written by code to avoid literal-quoting
noise. -/
def apos : Char := Char.ofNat 39

/-- Embedding of one JavaScript global single-character replacement
`s.replace(/c/g, t)`: every occurrence of the character `c` is replaced
by the string `t`. -/
def replaceChar (c : Char) (t : String) (s : String) : String :=
  String.mk (s.data.flatMap fun a => if a = c then t.data else [a])

/-- Embedding of `escapeHtml` (part_006): sequential global replacements
of `&` (first), `<`, `>`, `"` and the apostrophe by their HTML
entities. -/
def escapeHtml (s : String) : String :=
  replaceChar apos "&#39;"
    (replaceChar '"' "&quot;"
      (replaceChar '>' "&gt;"
        (replaceChar '<' "&lt;"
          (replaceChar '&' "&amp;" s))))

/-- The fields of a rendered block the webview template reads:
`block.type`, `block.text`, `block.confidence`. -/
structure WebBlock where
  type : String
  text : String
  confidence : ℚ

/-- Rendering of `(block.confidence * 100).toFixed(1)`: the source
formats an IEEE double to one decimal; modelled exactly on rationals by
rounding to tenths. -/
def jsToFixed1 (x : ℚ) : String :=
  toString (round (x * 10) / 10) ++ "." ++ toString (round (x * 10) % 10)

/-- Embedding of the `renderBlocks` per-block template literal
(part_006); `\x27` denotes the apostrophes of the source template, and
the three `${escapeHtml(block.text)}` interpolations become the three
`escapeHtml b.text` segments. -/
def renderBlock (b : WebBlock) : String :=
  "\n        <div class=\"block "
    ++ (if b.type = "heading" then "block-heading" else "")
    ++ "\"\n             onclick=\"this.classList.toggle(\x27selected\x27)\">\n            <div class=\"block-actions\">\n                <button onclick=\"insertBlock(\x27"
    ++ escapeHtml b.text
    ++ "\x27)\">Insert</button>\n                <button onclick=\"copyBlock(\x27"
    ++ escapeHtml b.text
    ++ "\x27)\">Copy</button>\n            </div>\n            <div class=\"block-text\">"
    ++ escapeHtml b.text
    ++ "</div>\n            <div class=\"confidence\">Confidence: "
    ++ jsToFixed1 (b.confidence * 100)
    ++ "%</div>\n        </div>\n    "

/-- Embedding of `renderBlocks`: the per-block renderings joined
(`.map(...).join('')`). -/
def renderBlocks (bs : List WebBlock) : String :=
  String.join (bs.map renderBlock)

/-- Number of occurrences of a character in a string. -/
def countChar (c : Char) (s : String) : Nat :=
  s.data.count c

/-! ## Supporting lemmas for the result ordering -/

/-- Sorting produces a list sorted by the result order. -/
theorem sortResults_sorted (l : List QueryResult) :
    List.Sorted resultOrder (sortResults l) :=
  List.sorted_insertionSort resultOrder l

/-- Filtering and truncating a sorted result list keeps it sorted. -/
theorem processed_sorted (X : List QueryResult) (q : PerceptionQuery) (n : Nat) :
    List.Sorted resultOrder ((apply_filters (sortResults X) q).take n) :=
  List.Pairwise.sublist (List.take_sublist _ _)
    ((sortResults_sorted X).filter _)

/-! ## Theorems for C1, C2, C3 -/

/-- C1: for a stored document, the query endpoint applies the
`page_range`/`block_types` filters after matching (keyword or regex) and
before truncation to `max_results`: every returned result passes the
filters, and the number of returned results is the minimum of
`max_results` and the TOTAL number of matched results passing the
filters — a result excluded by a filter never consumes a slot. -/
theorem c1_filters_before_truncation :
    (∀ (store : String → Option Doc) (q : PerceptionQuery) (doc : Doc)
      (res : List QueryResult),
      store q.document_id = some doc → q.mode = QueryMode.keyword →
      query_document store q = Except.ok res →
      (∀ r ∈ res, passesFilters q r = true) ∧
      res.length = min q.max_results
        ((keyword_search doc q.query).countP (passesFilters q))) ∧
    (∀ (store : String → Option Doc) (q : PerceptionQuery) (doc : Doc)
      (res M : List QueryResult),
      store q.document_id = some doc → q.mode = QueryMode.regex →
      regex_search doc q.query = Except.ok M →
      query_document store q = Except.ok res →
      (∀ r ∈ res, passesFilters q r = true) ∧
      res.length = min q.max_results (M.countP (passesFilters q))) := by
  have key : ∀ (X : List QueryResult) (q : PerceptionQuery),
      (∀ r ∈ (apply_filters X q).take q.max_results, passesFilters q r = true) ∧
      ((apply_filters X q).take q.max_results).length
        = min q.max_results (X.countP (passesFilters q)) := by
    intro X q
    constructor
    · intro r hr
      exact List.of_mem_filter (List.take_subset _ _ hr)
    · rw [List.countP_eq_length_filter]
      simp [apply_filters, List.length_take]
  constructor
  · intro store q doc res hs hm h
    simp only [query_document, hs, hm] at h
    have hres : res = (apply_filters (keyword_search doc q.query) q).take q.max_results := by
      cases h
      rfl
    rw [hres]
    exact key _ q
  · intro store q doc res M hs hm hr h
    simp only [query_document, hs, hm, hr] at h
    have hres : res = (apply_filters M q).take q.max_results := by
      cases h
      rfl
    rw [hres]
    exact key _ q

/-- Witness for C1: the page-2 filter with `max_results = 1` returns the
page-2 match (the filtered-out page-1 match, though ranked first, does
not consume the single slot), and a block-type filter that excludes the
only regex match returns the empty list with the matching count 0. -/
theorem c1_filters_before_truncation_witness :
    ((∀ r ∈ [sampleResult2], passesFilters sampleQueryPageFiltered r = true) ∧
      ([sampleResult2] : List QueryResult).length
        = min sampleQueryPageFiltered.max_results
          ((keyword_search sampleDoc sampleQueryPageFiltered.query).countP
            (passesFilters sampleQueryPageFiltered))) ∧
    ((∀ r ∈ ([] : List QueryResult), passesFilters sampleQueryRegexFiltered r = true) ∧
      ([] : List QueryResult).length
        = min sampleQueryRegexFiltered.max_results
          (([sampleRegexResult] : List QueryResult).countP
            (passesFilters sampleQueryRegexFiltered))) :=
  ⟨c1_filters_before_truncation.1 sampleStore sampleQueryPageFiltered sampleDoc
      [sampleResult2] rfl rfl rfl,
   c1_filters_before_truncation.2 sampleStore sampleQueryRegexFiltered sampleDoc
      [] [sampleRegexResult] rfl rfl rfl rfl⟩

/-- C2: every successful query response is sorted by the spec's order —
primary key descending score, secondary key ascending
`(page_number, reading-order index)` — and holds at most `max_results`
results. -/
theorem c2_results_sorted_and_capped :
    ∀ (store : String → Option Doc) (q : PerceptionQuery) (res : List QueryResult),
      query_document store q = Except.ok res →
      List.Sorted resultOrder res ∧ res.length ≤ q.max_results := by
  have cap : ∀ (X : List QueryResult) (q : PerceptionQuery),
      ((apply_filters X q).take q.max_results).length ≤ q.max_results := by
    intro X q
    simp [List.length_take]
  intro store q res h
  cases hs : store q.document_id with
  | none =>
    simp only [query_document, hs] at h
    cases h
  | some doc =>
    cases hm : q.mode with
    | keyword =>
      simp only [query_document, hs, hm] at h
      have hres : res = (apply_filters (keyword_search doc q.query) q).take q.max_results := by
        cases h
        rfl
      rw [hres]
      exact ⟨processed_sorted _ _ _, cap _ _⟩
    | regex =>
      simp only [query_document, hs, hm] at h
      cases hr : regex_search doc q.query with
      | error e => rw [hr] at h; cases h
      | ok M =>
        rw [hr] at h
        have hres : res = (apply_filters M q).take q.max_results := by
          cases h
          rfl
        have hM : ∃ r, M = sortResults (regexMatches doc r) := by
          unfold regex_search at hr
          cases hp : parseRegex q.query with
          | none => rw [hp] at hr; cases hr
          | some r =>
            rw [hp] at hr
            cases hr
            exact ⟨r, rfl⟩
        obtain ⟨r, hMr⟩ := hM
        rw [hres, hMr]
        exact ⟨processed_sorted _ _ _, cap _ _⟩
    | semantic =>
      simp only [query_document, hs, hm] at h
      have hres : res = (apply_filters [] q).take q.max_results := by
        cases h
        rfl
      rw [hres]
      constructor
      · simp [apply_filters]
      · exact cap _ _

/-- Witness for C2: the unfiltered keyword query returns the two equal-
score matches ordered by ascending page number, within the cap. -/
theorem c2_results_sorted_and_capped_witness :
    List.Sorted resultOrder [sampleResult1, sampleResult2] ∧
      ([sampleResult1, sampleResult2] : List QueryResult).length
        ≤ sampleQueryAll.max_results :=
  c2_results_sorted_and_capped sampleStore sampleQueryAll
    [sampleResult1, sampleResult2] rfl

/-- C3: a regex query whose pattern is the syntactically invalid `"("`
fails with the typed `InvalidQueryError` for every store and stored
document — it neither crashes (the embedding is total) nor returns a
result list in place of the error. -/
theorem c3_invalid_regex_rejected :
    ∀ (store : String → Option Doc) (q : PerceptionQuery) (doc : Doc),
      store q.document_id = some doc → q.mode = QueryMode.regex → q.query = "(" →
      query_document store q = Except.error QueryError.invalidQuery := by
  intro store q doc hs hm hq
  have hparse : parseRegex "(" = none := rfl
  simp only [query_document, hs, hm, regex_search, hq, hparse]

/-- Witness for C3 at the sample store and the pattern `"("`. -/
theorem c3_invalid_regex_rejected_witness :
    query_document sampleStore sampleQueryBadPattern
      = Except.error QueryError.invalidQuery :=
  c3_invalid_regex_rejected sampleStore sampleQueryBadPattern sampleDoc rfl rfl rfl

/-! ## Theorems for C4, C5, C10 -/

/-- C10: after `setContent(u, c)`, `provideTextDocumentContent(u)` returns
exactly `c`; after `removeDocument(u)` or `clear()` it returns the empty
string; and `setContent` on one URI leaves every other URI's content
unchanged. -/
theorem c10_provider_map_semantics :
    (∀ (m : ProviderState) (u c : String),
      provideTextDocumentContent (setContent m u c) u = c) ∧
    (∀ (m : ProviderState) (u : String),
      provideTextDocumentContent (removeDocument m u) u = "") ∧
    (∀ (m : ProviderState) (u : String),
      provideTextDocumentContent (clearProvider m) u = "") ∧
    (∀ (m : ProviderState) (u u' c : String), u' ≠ u →
      provideTextDocumentContent (setContent m u c) u' =
        provideTextDocumentContent m u') := by
  refine ⟨fun m u c => ?_, fun m u => ?_, fun m u => ?_, fun m u u' c h => ?_⟩
  · simp only [provideTextDocumentContent, setContent, if_pos rfl]
    by_cases hc : c = ""
    · simp [hc]
    · simp [hc]
  · simp [provideTextDocumentContent, removeDocument]
  · simp [provideTextDocumentContent, clearProvider, emptyProvider]
  · simp [provideTextDocumentContent, setContent, if_neg h]

/-- Witness for C10 at concrete inputs: storing `"hello"` under one URI
returns it there, leaves a different URI empty. -/
theorem c10_provider_map_semantics_witness :
    provideTextDocumentContent
      (setContent emptyProvider "aletheia:doc-1.md" "hello") "aletheia:doc-1.md"
      = "hello" ∧
    provideTextDocumentContent
      (setContent emptyProvider "aletheia:doc-1.md" "hello") "aletheia:doc-2.md"
      = provideTextDocumentContent emptyProvider "aletheia:doc-2.md" :=
  ⟨c10_provider_map_semantics.1 emptyProvider "aletheia:doc-1.md" "hello",
   c10_provider_map_semantics.2.2.2 emptyProvider "aletheia:doc-1.md"
     "aletheia:doc-2.md" "hello" (by decide)⟩

/-- C4 counterexample: the cited get operation
`provideTextDocumentContent` returns the ambiguous empty string for a
missing id — the very same value it returns for a document whose stored
content is empty — rather than a distinguishable not-found outcome. -/
theorem c4_counterexample_get_returns_empty_string :
    provideTextDocumentContent emptyProvider "aletheia:missing.md" = "" ∧
    provideTextDocumentContent
      (setContent emptyProvider "aletheia:missing.md" "") "aletheia:missing.md"
      = "" := by
  constructor
  · rfl
  · rfl

/-- C4 amended: `getTempDocument` returns the distinguishable `none` for
a missing id (never an empty document), while
`AletheiaDocumentProvider.provideTextDocumentContent` returns the empty
string for any URI without content. -/
theorem c4_missing_id_outcomes :
    (∀ (m : TempDocState) (id : String), m id = none →
      getTempDocument m id = none) ∧
    (∀ (m : TempDocState) (id : String) (d : TempDocument), m id = some d →
      getTempDocument m id = some d) ∧
    (∀ (m : ProviderState) (u : String), m u = none →
      provideTextDocumentContent m u = "") := by
  refine ⟨fun m id h => h, fun m id d h => h, fun m u h => ?_⟩
  simp [provideTextDocumentContent, h]

/-- Witness for C4 amended at concrete inputs. -/
theorem c4_missing_id_outcomes_witness :
    getTempDocument (fun _ => none) "doc-123" = none ∧
    provideTextDocumentContent emptyProvider "aletheia:doc-123.md" = "" :=
  ⟨c4_missing_id_outcomes.1 (fun _ => none) "doc-123" rfl,
   c4_missing_id_outcomes.2.2 emptyProvider "aletheia:doc-123.md" rfl⟩

/-- C5 counterexample: two inputs with byte-identical content (the bytes
of `"%PDF"`) and different filenames are detected differently, so
detection is not a function of the content alone. -/
theorem c5_counterexample_detection_uses_filename :
    detectSupported "invoice.pdf" [37, 80, 68, 70] = true ∧
    detectSupported "invoice.txt" [37, 80, 68, 70] = false := by
  constructor
  · decide
  · decide

/-- C5 amended: detection depends only on the filename (in fact only on
its lowercased final extension), never on the content bytes: two inputs
with the same filename and arbitrary contents are detected identically,
and two filenames with equal extracted extension are detected
identically. -/
theorem c5_detection_depends_only_on_extension :
    (∀ (f : String) (c₁ c₂ : List Nat),
      detectSupported f c₁ = detectSupported f c₂) ∧
    (∀ f₁ f₂ : String, lastExt f₁ = lastExt f₂ →
      isSupportedFile f₁ = isSupportedFile f₂) := by
  refine ⟨fun f c₁ c₂ => rfl, fun f₁ f₂ h => ?_⟩
  simp [isSupportedFile, h]

/-- Witness for C5 amended at concrete inputs: content is ignored, and
`"a.PDF"` and `"b.pdf"` share the extension `"pdf"` and are both
supported. -/
theorem c5_detection_depends_only_on_extension_witness :
    detectSupported "scan.png" [1, 2, 3] = detectSupported "scan.png" [9, 9] ∧
    isSupportedFile "a.PDF" = isSupportedFile "b.pdf" :=
  ⟨c5_detection_depends_only_on_extension.1 "scan.png" [1, 2, 3] [9, 9],
   c5_detection_depends_only_on_extension.2 "a.PDF" "b.pdf" (by decide)⟩

/-! ## Theorems for C6, C7 -/

/-- C6 counterexample: for an image-only single-page input, the assembled
block carries id `"b1"`, not the claimed `"p{page}_b{index}"` form
(`"p1_b0"` with the source's 0-based index, nor `"p1_b1"`). -/
theorem c6_counterexample_image_block_id :
    ((ingest_image_blocks "Hello Aletheia" 100 80).map (fun b => b.id)) = ["b1"] ∧
    "b1" ≠ "p1_b0" ∧ "b1" ≠ "p1_b1" := by
  refine ⟨rfl, by decide, by decide⟩

/-- C6 amended: blocks produced by the PDF path carry
`id = "p{page}_b{index}"` with a 1-based page number and the block's
0-based index in extraction (reading) order, while the image path
assigns its single block the id `"b1"`. -/
theorem c6_block_id_format :
    (∀ (raw_pages : List RawPdfPage) (i j : Nat)
      (hi : i < (ingest_pdf raw_pages).length)
      (hj : j < ((ingest_pdf raw_pages).get ⟨i, hi⟩).blocks.length),
      (((ingest_pdf raw_pages).get ⟨i, hi⟩).blocks.get ⟨j, hj⟩).id
        = "p" ++ toString (i + 1) ++ "_b" ++ toString j) ∧
    (∀ (text : String) (width height : ℚ),
      (ingest_image_blocks text width height).map (fun b => b.id) = ["b1"]) := by
  constructor
  · intro raw_pages i j hi hj
    simp [ingest_pdf, ingest_pdf_blocks, List.get_eq_getElem,
      List.getElem_map, List.getElem_enum]
  · intro text width height
    rfl

/-- Witness for C6 amended: a one-page, one-block PDF input yields the id
`"p1_b0"`, and a concrete image input yields `["b1"]`. -/
theorem c6_block_id_format_witness :
    (((ingest_pdf [⟨612, 792, [⟨0, 0, 10, 10, "Title", 0, 0⟩]⟩]).get
        ⟨0, by decide⟩).blocks.get ⟨0, by decide⟩).id = "p1_b0" ∧
    (ingest_image_blocks "Hello" 100 80).map (fun b => b.id) = ["b1"] :=
  ⟨c6_block_id_format.1 [⟨612, 792, [⟨0, 0, 10, 10, "Title", 0, 0⟩]⟩] 0 0
      (by decide) (by decide),
   c6_block_id_format.2 "Hello" 100 80⟩

/-- C7: for every input and every index `i` into the produced pages,
`pages[i].page_number = i + 1`; page numbers are therefore 1-based,
strictly increasing, and gap-free. -/
theorem c7_page_numbers_sequential :
    (∀ (raw_pages : List RawPdfPage) (i : Nat)
      (hi : i < (ingest_pdf raw_pages).length),
      ((ingest_pdf raw_pages).get ⟨i, hi⟩).page_number = i + 1) ∧
    (∀ (raw_pages : List RawPdfPage) (i j : Nat)
      (hi : i < (ingest_pdf raw_pages).length)
      (hj : j < (ingest_pdf raw_pages).length), i < j →
      ((ingest_pdf raw_pages).get ⟨i, hi⟩).page_number
        < ((ingest_pdf raw_pages).get ⟨j, hj⟩).page_number) := by
  have key : ∀ (raw_pages : List RawPdfPage) (i : Nat)
      (hi : i < (ingest_pdf raw_pages).length),
      ((ingest_pdf raw_pages).get ⟨i, hi⟩).page_number = i + 1 := by
    intro raw_pages i hi
    simp [ingest_pdf, List.get_eq_getElem, List.getElem_map, List.getElem_enum]
  refine ⟨key, fun raw_pages i j hi hj hij => ?_⟩
  rw [key raw_pages i hi, key raw_pages j hj]
  omega

/-- Witness for C7 at a concrete two-page input. -/
theorem c7_page_numbers_sequential_witness :
    ((ingest_pdf [⟨612, 792, []⟩, ⟨612, 792, []⟩]).get ⟨1, by decide⟩).page_number
      = 2 ∧
    ((ingest_pdf [⟨612, 792, []⟩, ⟨612, 792, []⟩]).get ⟨0, by decide⟩).page_number
      < ((ingest_pdf [⟨612, 792, []⟩, ⟨612, 792, []⟩]).get ⟨1, by decide⟩).page_number :=
  ⟨c7_page_numbers_sequential.1 [⟨612, 792, []⟩, ⟨612, 792, []⟩] 1 (by decide),
   c7_page_numbers_sequential.2 [⟨612, 792, []⟩, ⟨612, 792, []⟩] 0 1
     (by decide) (by decide) (by decide)⟩

/-! ## Lemmas and theorem for C9 -/

/-- Characters of a replacement output come from the replacement text or
are untouched input characters different from the replaced one. -/
theorem mem_replaceChar {a c : Char} {t s : String}
    (h : a ∈ (replaceChar c t s).data) :
    a ∈ t.data ∨ (a ∈ s.data ∧ a ≠ c) := by
  have h' : a ∈ s.data.flatMap fun x => if x = c then t.data else [x] := h
  rw [List.mem_flatMap] at h'
  obtain ⟨x, hx, hax⟩ := h'
  by_cases hxc : x = c
  · subst hxc
    rw [if_pos rfl] at hax
    exact Or.inl hax
  · rw [if_neg hxc] at hax
    rw [List.mem_singleton] at hax
    subst hax
    exact Or.inr ⟨hx, hxc⟩

/-- A character absent from both the input and the replacement text is
absent from the output. -/
theorem replaceChar_preserves_absent {a c : Char} {t s : String}
    (ht : a ∉ t.data) (hs : a ∉ s.data) : a ∉ (replaceChar c t s).data := by
  intro h
  rcases mem_replaceChar h with h' | ⟨h', _⟩
  · exact ht h'
  · exact hs h'

/-- The replaced character is absent from the output whenever the
replacement text avoids it. -/
theorem replaceChar_removes {c : Char} {t s : String}
    (ht : c ∉ t.data) : c ∉ (replaceChar c t s).data := by
  intro h
  rcases mem_replaceChar h with h' | ⟨_, h'⟩
  · exact ht h'
  · exact h' rfl

/-- The escaped output carries no raw `<`, `>`, `"` or apostrophe. -/
theorem escapeHtml_no_specials (s : String) :
    '<' ∉ (escapeHtml s).data ∧ '>' ∉ (escapeHtml s).data ∧
      '"' ∉ (escapeHtml s).data ∧ apos ∉ (escapeHtml s).data := by
  unfold escapeHtml
  refine ⟨?_, ?_, ?_, ?_⟩
  · exact replaceChar_preserves_absent (by decide)
      (replaceChar_preserves_absent (by decide)
        (replaceChar_preserves_absent (by decide)
          (replaceChar_removes (by decide))))
  · exact replaceChar_preserves_absent (by decide)
      (replaceChar_preserves_absent (by decide)
        (replaceChar_removes (by decide)))
  · exact replaceChar_preserves_absent (by decide)
      (replaceChar_removes (by decide))
  · exact replaceChar_removes (by decide)

/-- Character counting distributes over string concatenation. -/
theorem countChar_append (c : Char) (s t : String) :
    countChar c (s ++ t) = countChar c s + countChar c t := by
  cases s
  cases t
  simp [countChar, List.count_append]

/-- Counting any of the special characters in the escaped text yields
zero. -/
theorem countChar_escapeHtml (s : String) :
    countChar '<' (escapeHtml s) = 0 ∧ countChar '>' (escapeHtml s) = 0 ∧
      countChar '"' (escapeHtml s) = 0 ∧ countChar apos (escapeHtml s) = 0 := by
  obtain ⟨h1, h2, h3, h4⟩ := escapeHtml_no_specials s
  exact ⟨List.count_eq_zero.mpr h1, List.count_eq_zero.mpr h2,
    List.count_eq_zero.mpr h3, List.count_eq_zero.mpr h4⟩

/-- C9: `escapeHtml` leaves no raw `<`, `>`, `"` or apostrophe in its
output (ampersands are escaped first, so entities are not double
escaped, as the concrete evaluation shows), and `renderBlocks` embeds
block text only through `escapeHtml`: changing a block's text cannot
change the number of `<`, `>`, `"` or apostrophe characters in the
rendered HTML. -/
theorem c9_escape_html_and_render_blocks :
    (∀ s : String, '<' ∉ (escapeHtml s).data ∧ '>' ∉ (escapeHtml s).data ∧
      '"' ∉ (escapeHtml s).data ∧ apos ∉ (escapeHtml s).data) ∧
    (escapeHtml "A&B<C>D\"E\x27F" = "A&amp;B&lt;C&gt;D&quot;E&#39;F") ∧
    (∀ (b : WebBlock) (t : String),
      countChar '<' (renderBlock { b with text := t })
          = countChar '<' (renderBlock b) ∧
      countChar '>' (renderBlock { b with text := t })
          = countChar '>' (renderBlock b) ∧
      countChar '"' (renderBlock { b with text := t })
          = countChar '"' (renderBlock b) ∧
      countChar apos (renderBlock { b with text := t })
          = countChar apos (renderBlock b)) := by
  refine ⟨escapeHtml_no_specials, by decide, ?_⟩
  intro b t
  obtain ⟨ty, tx, cf⟩ := b
  refine ⟨?_, ?_, ?_, ?_⟩ <;>
    simp only [renderBlock, countChar_append,
      (countChar_escapeHtml t).1, (countChar_escapeHtml t).2.1,
      (countChar_escapeHtml t).2.2.1, (countChar_escapeHtml t).2.2.2,
      (countChar_escapeHtml tx).1, (countChar_escapeHtml tx).2.1,
      (countChar_escapeHtml tx).2.2.1, (countChar_escapeHtml tx).2.2.2]
